import Mathlib

/-!
RTK Surveyor firmware, `Firmware/RTK_Surveyor/settings.h`.

A shallow embedding of the declarations of `settings.h`: the enumerations with
their C encodings, the global variables with their initial values, the
`struct_settings` record with its declared field order and its default member
initialisers.

Conventions of the embedding.

* A C `enum` is an inductive type together with its declaration list (each
  enumerator with its optional explicit initialiser, in source order); the
  encoding of an enumerator is computed from that list by the C numbering rule
  (`enumerate`).
* `int` values are `Int`; `uint16_t` and `uint32_t` values are `Nat`.
* `float` and `double` members hold finite values and are represented by the
  exact rational value of the literal (`1.0`, `5.0` and `0.0` are exactly
  representable in binary32 / binary64).
* `char name[N]` members are represented by the string they are initialised
  with; the capacity `N` is kept in the declared field list.
* The macro `RTK_IDENTIFIER` is defined outside `settings.h`; it is a parameter.
-/

namespace RTKSurveyor

/-! C enumerations -/

/-- C numbering rule for the enumerators of an `enum`: an enumerator with an
explicit initialiser takes that value, one without takes the previous value
plus one; `next` is the value an enumerator without initialiser would get
(`0` at the start of the declaration). -/
def enumerate {α : Type} : Int → List (α × Option Int) → List (α × Int)
  | _, [] => []
  | next, (a, none) :: rest => (a, next) :: enumerate (next + 1) rest
  | _, (a, some v) :: rest => (a, v) :: enumerate (v + 1) rest

/-- Value of the enumerator `a` in the enum declared by `decl`. -/
def enumValue {α : Type} [DecidableEq α] (decl : List (α × Option Int)) (a : α) : Int :=
  match (enumerate 0 decl).find? (fun p => decide (p.1 = a)) with
  | some p => p.2
  | none => 0

/-- The enum `SystemState` (settings.h lines 2-23). -/
inductive SystemState where
  | STATE_ROVER_NOT_STARTED
  | STATE_ROVER_NO_FIX
  | STATE_ROVER_FIX
  | STATE_ROVER_RTK_FLOAT
  | STATE_ROVER_RTK_FIX
  | STATE_BASE_NOT_STARTED
  | STATE_BASE_TEMP_SETTLE
  | STATE_BASE_TEMP_SURVEY_STARTED
  | STATE_BASE_TEMP_TRANSMITTING
  | STATE_BASE_TEMP_WIFI_STARTED
  | STATE_BASE_TEMP_WIFI_CONNECTED
  | STATE_BASE_TEMP_CASTER_STARTED
  | STATE_BASE_TEMP_CASTER_CONNECTED
  | STATE_BASE_FIXED_NOT_STARTED
  | STATE_BASE_FIXED_TRANSMITTING
  | STATE_BASE_FIXED_WIFI_STARTED
  | STATE_BASE_FIXED_WIFI_CONNECTED
  | STATE_BASE_FIXED_CASTER_STARTED
  | STATE_BASE_FIXED_CASTER_CONNECTED
  deriving DecidableEq, Repr

namespace SystemState

/-- The enumerators of `SystemState` as declared: only the first one has an
explicit initialiser (`= 0`). -/
def declaration : List (SystemState × Option Int) :=
  [ (STATE_ROVER_NOT_STARTED, some 0),
    (STATE_ROVER_NO_FIX, none),
    (STATE_ROVER_FIX, none),
    (STATE_ROVER_RTK_FLOAT, none),
    (STATE_ROVER_RTK_FIX, none),
    (STATE_BASE_NOT_STARTED, none),
    (STATE_BASE_TEMP_SETTLE, none),
    (STATE_BASE_TEMP_SURVEY_STARTED, none),
    (STATE_BASE_TEMP_TRANSMITTING, none),
    (STATE_BASE_TEMP_WIFI_STARTED, none),
    (STATE_BASE_TEMP_WIFI_CONNECTED, none),
    (STATE_BASE_TEMP_CASTER_STARTED, none),
    (STATE_BASE_TEMP_CASTER_CONNECTED, none),
    (STATE_BASE_FIXED_NOT_STARTED, none),
    (STATE_BASE_FIXED_TRANSMITTING, none),
    (STATE_BASE_FIXED_WIFI_STARTED, none),
    (STATE_BASE_FIXED_WIFI_CONNECTED, none),
    (STATE_BASE_FIXED_CASTER_STARTED, none),
    (STATE_BASE_FIXED_CASTER_CONNECTED, none) ]

/-- Every enumerator of `SystemState`, in declaration order. -/
def all : List SystemState := declaration.map Prod.fst

/-- Integer encoding of a `SystemState` value. -/
def encoding (s : SystemState) : Int := enumValue declaration s

/-- The rover family: the enumerators named `STATE_ROVER_*`. -/
def isRover : SystemState → Bool
  | STATE_ROVER_NOT_STARTED => true
  | STATE_ROVER_NO_FIX => true
  | STATE_ROVER_FIX => true
  | STATE_ROVER_RTK_FLOAT => true
  | STATE_ROVER_RTK_FIX => true
  | _ => false

/-- The base family: the enumerators named `STATE_BASE_*`. -/
def isBase : SystemState → Bool
  | STATE_BASE_NOT_STARTED => true
  | STATE_BASE_TEMP_SETTLE => true
  | STATE_BASE_TEMP_SURVEY_STARTED => true
  | STATE_BASE_TEMP_TRANSMITTING => true
  | STATE_BASE_TEMP_WIFI_STARTED => true
  | STATE_BASE_TEMP_WIFI_CONNECTED => true
  | STATE_BASE_TEMP_CASTER_STARTED => true
  | STATE_BASE_TEMP_CASTER_CONNECTED => true
  | STATE_BASE_FIXED_NOT_STARTED => true
  | STATE_BASE_FIXED_TRANSMITTING => true
  | STATE_BASE_FIXED_WIFI_STARTED => true
  | STATE_BASE_FIXED_WIFI_CONNECTED => true
  | STATE_BASE_FIXED_CASTER_STARTED => true
  | STATE_BASE_FIXED_CASTER_CONNECTED => true
  | _ => false

end SystemState

/-- Initial value of the global `volatile SystemState systemState`
(settings.h line 24): its value before any event has been processed. -/
def systemState : SystemState := SystemState.STATE_ROVER_NOT_STARTED

/-- The enum `coordinateType_e` (settings.h lines 53-57). -/
inductive coordinateType_e where
  | COORD_TYPE_ECEF
  | COORD_TYPE_GEOGRAPHIC
  deriving DecidableEq, Repr

/-- The enumerators of `coordinateType_e` as declared. -/
def coordinateType_e.declaration : List (coordinateType_e × Option Int) :=
  [ (.COORD_TYPE_ECEF, some 0),
    (.COORD_TYPE_GEOGRAPHIC, none) ]

/-- Integer encoding of a `coordinateType_e` value. -/
def coordinateType_e.encoding (c : coordinateType_e) : Int :=
  enumValue coordinateType_e.declaration c

/-- The enum `muxConnectionType_e` (settings.h lines 44-50). -/
inductive muxConnectionType_e where
  | MUX_UBLOX_NMEA
  | MUX_PPS_EVENTTRIGGER
  | MUX_I2C
  | MUX_ADC_DAC
  deriving DecidableEq, Repr

/-- The enum `t_errorNumber` (settings.h lines 60-64): the LED blink codes. -/
inductive t_errorNumber where
  | ERROR_NO_I2C
  | ERROR_GPS_CONFIG_FAIL
  deriving DecidableEq, Repr

/-- The enumerators of `t_errorNumber` as declared: `ERROR_NO_I2C = 2`, the
second one without initialiser. -/
def t_errorNumber.declaration : List (t_errorNumber × Option Int) :=
  [ (.ERROR_NO_I2C, some 2),
    (.ERROR_GPS_CONFIG_FAIL, none) ]

/-- Integer encoding (blink code) of a `t_errorNumber` value. -/
def t_errorNumber.encoding (e : t_errorNumber) : Int :=
  enumValue t_errorNumber.declaration e

/-- The enum `returnStatus` (settings.h lines 78-82): return values of the input helpers. -/
inductive returnStatus where
  | STATUS_GETBYTE_TIMEOUT
  | STATUS_GETNUMBER_TIMEOUT
  | STATUS_PRESSED_X
  deriving DecidableEq, Repr

/-- The enumerators of `returnStatus` as declared, each with its explicit value. -/
def returnStatus.declaration : List (returnStatus × Option Int) :=
  [ (.STATUS_GETBYTE_TIMEOUT, some 255),
    (.STATUS_GETNUMBER_TIMEOUT, some (-123455555)),
    (.STATUS_PRESSED_X, some 254) ]

/-- Integer encoding of a `returnStatus` value. -/
def returnStatus.encoding (r : returnStatus) : Int :=
  enumValue returnStatus.declaration r

/-! The settings record -/

/-- The record `struct gnssMessages` (settings.h lines 85-94) with its default member
initialisers. -/
structure gnssMessages where
  gga : Bool := true
  gsa : Bool := true
  gsv : Bool := true
  rmc : Bool := true
  gst : Bool := true
  rawx : Bool := false
  sfrbx : Bool := false
  deriving DecidableEq, Repr

/-- The record `struct struct_settings` (settings.h lines 97-133), members in declared order. -/
structure struct_settings where
  sizeOfSettings : Int
  rtkIdentifier : Int
  printDebugMessages : Bool
  enableSD : Bool
  enableDisplay : Bool
  frequentFileAccessTimestamps : Bool
  maxLogTime_minutes : Int
  observationSeconds : Int
  observationPositionAccuracy : ℚ
  fixedBase : Bool
  fixedBaseCoordinateType : Bool
  fixedEcefX : ℚ
  fixedEcefY : ℚ
  fixedEcefZ : ℚ
  fixedLat : ℚ
  fixedLong : ℚ
  fixedAltitude : ℚ
  dataPortBaud : Nat
  radioPortBaud : Nat
  enableSBAS : Bool
  enableNtripServer : Bool
  casterHost : String
  casterPort : Nat
  mountPoint : String
  mountPointPW : String
  wifiSSID : String
  wifiPW : String
  surveyInStartingAccuracy : ℚ
  measurementRate : Nat
  navigationRate : Nat
  broadcast : gnssMessages
  log : gnssMessages
  enableI2Cdebug : Bool
  enableHeapReport : Bool
  dataPortChannel : muxConnectionType_e

/-- Initial value of the global `settings`: the default member initialisers of
`struct_settings`. The macro `RTK_IDENTIFIER` is a parameter. -/
def settings (RTK_IDENTIFIER : Int) : struct_settings where
  sizeOfSettings := 0
  rtkIdentifier := RTK_IDENTIFIER
  printDebugMessages := false
  enableSD := true
  enableDisplay := true
  frequentFileAccessTimestamps := false
  maxLogTime_minutes := 60 * 10
  observationSeconds := 60
  observationPositionAccuracy := 5.0
  fixedBase := false
  fixedBaseCoordinateType := decide (coordinateType_e.encoding .COORD_TYPE_ECEF ≠ 0)
  fixedEcefX := 0.0
  fixedEcefY := 0.0
  fixedEcefZ := 0.0
  fixedLat := 0.0
  fixedLong := 0.0
  fixedAltitude := 0.0
  dataPortBaud := 115200
  radioPortBaud := 57600
  enableSBAS := false
  enableNtripServer := false
  casterHost := "rtk2go.com"
  casterPort := 2101
  mountPoint := "bldr_dwntwn2"
  mountPointPW := "WR5wRo4H"
  wifiSSID := "TRex"
  wifiPW := "parachutes"
  surveyInStartingAccuracy := 1.0
  measurementRate := 250
  navigationRate := 1
  broadcast := {}
  log := {}
  enableI2Cdebug := false
  enableHeapReport := false
  dataPortChannel := .MUX_UBLOX_NMEA

/-- The C types that occur as member types of `struct_settings`. -/
inductive CType where
  | int
  | bool
  | float
  | double
  | uint16_t
  | uint32_t
  | charArray (capacity : Nat)
  | gnssMessages
  | muxConnectionType_e
  deriving DecidableEq, Repr

/-- The member declarations of `struct_settings`, type and name, in declared
order (settings.h lines 98-132). -/
def struct_settings.declaration : List (CType × String) :=
  [ (.int, "sizeOfSettings"),
    (.int, "rtkIdentifier"),
    (.bool, "printDebugMessages"),
    (.bool, "enableSD"),
    (.bool, "enableDisplay"),
    (.bool, "frequentFileAccessTimestamps"),
    (.int, "maxLogTime_minutes"),
    (.int, "observationSeconds"),
    (.float, "observationPositionAccuracy"),
    (.bool, "fixedBase"),
    (.bool, "fixedBaseCoordinateType"),
    (.double, "fixedEcefX"),
    (.double, "fixedEcefY"),
    (.double, "fixedEcefZ"),
    (.double, "fixedLat"),
    (.double, "fixedLong"),
    (.double, "fixedAltitude"),
    (.uint32_t, "dataPortBaud"),
    (.uint32_t, "radioPortBaud"),
    (.bool, "enableSBAS"),
    (.bool, "enableNtripServer"),
    (.charArray 50, "casterHost"),
    (.uint16_t, "casterPort"),
    (.charArray 50, "mountPoint"),
    (.charArray 50, "mountPointPW"),
    (.charArray 50, "wifiSSID"),
    (.charArray 50, "wifiPW"),
    (.float, "surveyInStartingAccuracy"),
    (.uint16_t, "measurementRate"),
    (.uint16_t, "navigationRate"),
    (.gnssMessages, "broadcast"),
    (.gnssMessages, "log"),
    (.bool, "enableI2Cdebug"),
    (.bool, "enableHeapReport"),
    (.muxConnectionType_e, "dataPortChannel") ]

/-- Declared type of the member called `name`, if there is one. -/
def struct_settings.memberType (name : String) : Option CType :=
  (struct_settings.declaration.find? (fun m => m.2 == name)).map Prod.fst

/-- Position of the member called `name` in the declared order, if there is one. -/
def struct_settings.memberIndex (name : String) : Option Nat :=
  let i := struct_settings.declaration.findIdx (fun m => m.2 == name)
  if i < struct_settings.declaration.length then some i else none

/-- Capacity in bytes of a `char[N]` member, `none` for a member of another type. -/
def struct_settings.capacity (name : String) : Option Nat :=
  match struct_settings.memberType name with
  | some (.charArray n) => some n
  | _ => none

/-- Modelled from the spec: the size in bytes of a C `int` on the target, which
the toolchain fixes and `settings.h` does not state; the spec calls both guard
fields "4-byte-equivalent". -/
def sizeofInt : Nat := 4

/-- Bytes taken by the members of the leading run of `int` members of a
declaration: the guard header of the record. -/
def leadingIntBytes : List (CType × String) → Nat
  | (.int, _) :: rest => sizeofInt + leadingIntBytes rest
  | _ => 0

/-- The members of `struct_settings` declared as `char` arrays, in declared order. -/
def struct_settings.textMembers : List String :=
  (struct_settings.declaration.filter
    (fun m => match m.1 with
      | .charArray _ => true
      | _ => false)).map Prod.snd

/-! Survey-in progress reports -/

/-- Modelled from the spec: a survey-in progress report of the GNSS
collaborator (spec section 6, "Survey-in input"): elapsed time in seconds and
accuracy in metres. The report type is not declared in `settings.h`. -/
structure SurveyInReport where
  elapsedSeconds : Int
  accuracy : ℚ

/-- Modelled from the spec: the completion condition of the survey-in
(spec section 4.1): "both elapsed time ≥ `observationSeconds` and resulting
accuracy ≤ `observationPositionAccuracy`", on one report. The state machine
that evaluates it is not in `settings.h`. -/
def surveyInComplete (cfg : struct_settings) (r : SurveyInReport) : Bool :=
  decide (cfg.observationSeconds ≤ r.elapsedSeconds) &&
    decide (r.accuracy ≤ cfg.observationPositionAccuracy)

/-- Modelled from the spec: the transition of the mode state machine on a
survey-in progress report (spec section 4.1, "temp-base path only"); the state
machine itself is not in `settings.h`. In `TEMP_SETTLE` the state becomes
`TEMP_SURVEY_STARTED` once the accuracy is at or below
`surveyInStartingAccuracy`; in `TEMP_SURVEY_STARTED` it becomes
`TEMP_TRANSMITTING` once the completion condition holds; every other state is
left unchanged. -/
def surveyInProgress (cfg : struct_settings) (s : SystemState) (r : SurveyInReport) :
    SystemState :=
  match s with
  | .STATE_BASE_TEMP_SETTLE =>
      if r.accuracy ≤ cfg.surveyInStartingAccuracy then .STATE_BASE_TEMP_SURVEY_STARTED else s
  | .STATE_BASE_TEMP_SURVEY_STARTED =>
      if surveyInComplete cfg r = true then .STATE_BASE_TEMP_TRANSMITTING else s
  | _ => s

/-- Modelled from the spec: the state after a sequence of survey-in progress
reports has been applied, one transition per report, oldest first. -/
def applyReports (cfg : struct_settings) (s : SystemState) (rs : List SurveyInReport) :
    SystemState :=
  rs.foldl (surveyInProgress cfg) s

/-- Modelled from the spec: the state machine "reaches" `target` on the
sequence `rs` from `s` when the state is `target` after some prefix of `rs`. -/
def reaches (cfg : struct_settings) (s : SystemState) (rs : List SurveyInReport)
    (target : SystemState) : Prop :=
  ∃ k, applyReports cfg s (rs.take k) = target

/-! Theorems -/

/-- C1: the initial value of `systemState` is `STATE_ROVER_NOT_STARTED`; that
value has encoding 0, it is the only `SystemState` value with encoding 0, and
it belongs to the rover family. -/
theorem systemState_initial_is_rover_not_started :
    systemState = SystemState.STATE_ROVER_NOT_STARTED ∧
    SystemState.encoding systemState = 0 ∧
    (∀ s : SystemState, s.encoding = 0 ↔ s = SystemState.STATE_ROVER_NOT_STARTED) ∧
    SystemState.isRover systemState = true ∧
    SystemState.isBase systemState = false := by
  refine ⟨rfl, by decide, ?_, rfl, rfl⟩
  intro s
  cases s <;> decide

/-- C3: every `SystemState` value is in exactly one of the two families. The
rover family is the five `STATE_ROVER_*` values, with encodings 0 to 4, the
base family the fourteen `STATE_BASE_*` values, with encodings 5 to 18; a state
is a base state iff its encoding is at least that of `STATE_BASE_NOT_STARTED`
and a rover state iff its encoding is below it. -/
theorem systemState_family_partition :
    (∀ s : SystemState,
      (s.isRover = true ∨ s.isBase = true) ∧
      ¬ (s.isRover = true ∧ s.isBase = true) ∧
      (s.isBase = true ↔
        SystemState.encoding SystemState.STATE_BASE_NOT_STARTED ≤ s.encoding) ∧
      (s.isRover = true ↔
        s.encoding < SystemState.encoding SystemState.STATE_BASE_NOT_STARTED) ∧
      (s.isRover = true ↔ 0 ≤ s.encoding ∧ s.encoding ≤ 4) ∧
      (s.isBase = true ↔ 5 ≤ s.encoding ∧ s.encoding ≤ 18)) ∧
    SystemState.all.length = 19 ∧
    (SystemState.all.filter SystemState.isRover).length = 5 ∧
    (SystemState.all.filter SystemState.isBase).length = 14 ∧
    (SystemState.all.filter SystemState.isRover).map SystemState.encoding = [0, 1, 2, 3, 4] ∧
    (SystemState.all.filter SystemState.isBase).map SystemState.encoding =
      [5, 6, 7, 8, 9, 10, 11, 12, 13, 14, 15, 16, 17, 18] ∧
    (∀ s : SystemState, s ∈ SystemState.all) := by
  refine ⟨?_, by decide, by decide, by decide, by decide, by decide, ?_⟩
  · intro s
    cases s <;> decide
  · intro s
    cases s <;> decide

/-- C4: in the declared member order of `struct_settings`, `sizeOfSettings` is
first and `rtkIdentifier` second, both of type `int` (4 bytes each, 8 bytes
together), and `printDebugMessages` is third; any member other than the two
guard fields sits at position 2 or later. -/
theorem guard_fields_lead_struct_settings (i : Nat) (m : CType × String)
    (hm : struct_settings.declaration[i]? = some m)
    (h1 : m.2 ≠ "sizeOfSettings") (h2 : m.2 ≠ "rtkIdentifier") :
    struct_settings.declaration[0]? = some (CType.int, "sizeOfSettings") ∧
    struct_settings.declaration[1]? = some (CType.int, "rtkIdentifier") ∧
    struct_settings.declaration[2]? = some (CType.bool, "printDebugMessages") ∧
    struct_settings.memberIndex "sizeOfSettings" = some 0 ∧
    struct_settings.memberIndex "rtkIdentifier" = some 1 ∧
    struct_settings.memberIndex "printDebugMessages" = some 2 ∧
    sizeofInt = 4 ∧
    leadingIntBytes struct_settings.declaration = 8 ∧
    2 ≤ i := by
  refine ⟨rfl, rfl, rfl, by decide, by decide, by decide, rfl, by decide, ?_⟩
  rcases i with _ | _ | i
  · simp [struct_settings.declaration] at hm
    exact absurd (hm ▸ rfl) h1
  · simp [struct_settings.declaration] at hm
    exact absurd (hm ▸ rfl) h2
  · omega

/-- C4, at a concrete member: `printDebugMessages`, which is not a guard field,
sits at position 2. -/
theorem guard_fields_lead_struct_settings_witness :
    struct_settings.declaration[2]? = some (CType.bool, "printDebugMessages") ∧
    (2 : Nat) ≤ 2 :=
  ⟨rfl,
    (guard_fields_lead_struct_settings 2 (CType.bool, "printDebugMessages") rfl
      (by decide) (by decide)).2.2.2.2.2.2.2.2⟩

/-- The completion condition, as a proposition on the two thresholds. -/
theorem surveyInComplete_iff (cfg : struct_settings) (r : SurveyInReport) :
    surveyInComplete cfg r = true ↔
      cfg.observationSeconds ≤ r.elapsedSeconds ∧
        r.accuracy ≤ cfg.observationPositionAccuracy := by
  simp [surveyInComplete]

/-- Survey-in progress reports do not move the state out of `TEMP_TRANSMITTING`. -/
theorem applyReports_transmitting (cfg : struct_settings) (rs : List SurveyInReport) :
    applyReports cfg .STATE_BASE_TEMP_TRANSMITTING rs = .STATE_BASE_TEMP_TRANSMITTING := by
  induction rs with
  | nil => rfl
  | cons r rs ih => simpa [applyReports, surveyInProgress] using ih

/-- One report applied in `TEMP_SURVEY_STARTED`, then the rest of the sequence. -/
theorem applyReports_survey_started_cons (cfg : struct_settings) (r : SurveyInReport)
    (rs : List SurveyInReport) :
    applyReports cfg .STATE_BASE_TEMP_SURVEY_STARTED (r :: rs) =
      if surveyInComplete cfg r = true then .STATE_BASE_TEMP_TRANSMITTING
      else applyReports cfg .STATE_BASE_TEMP_SURVEY_STARTED rs := by
  by_cases h : surveyInComplete cfg r = true
  · have := applyReports_transmitting cfg rs
    simpa [applyReports, surveyInProgress, h] using this
  · simp [applyReports, surveyInProgress, h]

/-- From `TEMP_SURVEY_STARTED` the final state is `TEMP_TRANSMITTING` exactly
when some report of the sequence satisfies the completion condition. -/
theorem applyReports_survey_started_eq_transmitting (cfg : struct_settings)
    (rs : List SurveyInReport) :
    applyReports cfg .STATE_BASE_TEMP_SURVEY_STARTED rs = .STATE_BASE_TEMP_TRANSMITTING ↔
      ∃ r ∈ rs, surveyInComplete cfg r = true := by
  induction rs with
  | nil => simp [applyReports]
  | cons r rs ih =>
    rw [applyReports_survey_started_cons]
    by_cases h : surveyInComplete cfg r = true
    · simp [h]
    · simp [h, ih]

/-- From `TEMP_SURVEY_STARTED` the state is unchanged by a sequence none of
whose reports satisfies the completion condition. -/
theorem applyReports_survey_started_stays (cfg : struct_settings)
    (rs : List SurveyInReport) (h : ∀ r ∈ rs, ¬ surveyInComplete cfg r = true) :
    applyReports cfg .STATE_BASE_TEMP_SURVEY_STARTED rs =
      .STATE_BASE_TEMP_SURVEY_STARTED := by
  induction rs with
  | nil => rfl
  | cons r rs ih =>
    rw [applyReports_survey_started_cons]
    have hr : ¬ surveyInComplete cfg r = true := h r (List.mem_cons_self r rs)
    simp only [hr, if_false]
    exact ih (fun x hx => h x (List.mem_cons_of_mem r hx))

/-- C2: for every sequence of survey-in progress reports applied from
`STATE_BASE_TEMP_SURVEY_STARTED`, the state machine reaches
`STATE_BASE_TEMP_TRANSMITTING` (after some prefix, and equally as its final
state) iff some single report has both elapsed time ≥ `observationSeconds` and
accuracy ≤ `observationPositionAccuracy`; when no single report has both, the
state is `STATE_BASE_TEMP_SURVEY_STARTED` after every prefix. -/
theorem survey_in_transmits_iff_joint_report (cfg : struct_settings)
    (rs : List SurveyInReport) :
    (reaches cfg .STATE_BASE_TEMP_SURVEY_STARTED rs .STATE_BASE_TEMP_TRANSMITTING ↔
      ∃ r ∈ rs, cfg.observationSeconds ≤ r.elapsedSeconds ∧
        r.accuracy ≤ cfg.observationPositionAccuracy) ∧
    (applyReports cfg .STATE_BASE_TEMP_SURVEY_STARTED rs = .STATE_BASE_TEMP_TRANSMITTING ↔
      ∃ r ∈ rs, cfg.observationSeconds ≤ r.elapsedSeconds ∧
        r.accuracy ≤ cfg.observationPositionAccuracy) ∧
    ((∀ r ∈ rs, ¬ (cfg.observationSeconds ≤ r.elapsedSeconds ∧
        r.accuracy ≤ cfg.observationPositionAccuracy)) →
      ∀ k, applyReports cfg .STATE_BASE_TEMP_SURVEY_STARTED (rs.take k) =
        .STATE_BASE_TEMP_SURVEY_STARTED) := by
  have final : applyReports cfg .STATE_BASE_TEMP_SURVEY_STARTED rs =
      .STATE_BASE_TEMP_TRANSMITTING ↔
      ∃ r ∈ rs, cfg.observationSeconds ≤ r.elapsedSeconds ∧
        r.accuracy ≤ cfg.observationPositionAccuracy := by
    rw [applyReports_survey_started_eq_transmitting]
    constructor
    · rintro ⟨r, hr, hc⟩
      exact ⟨r, hr, (surveyInComplete_iff cfg r).mp hc⟩
    · rintro ⟨r, hr, hc⟩
      exact ⟨r, hr, (surveyInComplete_iff cfg r).mpr hc⟩
  refine ⟨?_, final, ?_⟩
  · constructor
    · rintro ⟨k, hk⟩
      obtain ⟨r, hr, hc⟩ :=
        (applyReports_survey_started_eq_transmitting cfg (rs.take k)).mp hk
      exact ⟨r, List.mem_of_mem_take hr, (surveyInComplete_iff cfg r).mp hc⟩
    · intro h
      exact ⟨rs.length, by rw [List.take_length]; exact final.mpr h⟩
  · intro h k
    apply applyReports_survey_started_stays
    intro r hr hc
    exact h r (List.mem_of_mem_take hr) ((surveyInComplete_iff cfg r).mp hc)

/-- C2, on the default thresholds (60 s, 5.0 m): the sequence (60 s, 6.0 m),
(30 s, 4.0 m) meets each threshold in a different report and stays in
`STATE_BASE_TEMP_SURVEY_STARTED`; the sequence (30 s, 6.0 m), (60 s, 4.0 m)
meets both in its second report and ends in `STATE_BASE_TEMP_TRANSMITTING`. -/
theorem survey_in_transmits_iff_joint_report_witness :
    applyReports (settings 0) .STATE_BASE_TEMP_SURVEY_STARTED
        [⟨60, 6.0⟩, ⟨30, 4.0⟩] = .STATE_BASE_TEMP_SURVEY_STARTED ∧
    applyReports (settings 0) .STATE_BASE_TEMP_SURVEY_STARTED
        [⟨30, 6.0⟩, ⟨60, 4.0⟩] = .STATE_BASE_TEMP_TRANSMITTING :=
  ⟨(survey_in_transmits_iff_joint_report (settings 0) [⟨60, 6.0⟩, ⟨30, 4.0⟩]).2.2
      (by
        intro r hr
        simp only [List.mem_cons, List.mem_singleton, List.not_mem_nil, or_false] at hr
        rcases hr with rfl | rfl <;> norm_num [settings]) 2,
    (survey_in_transmits_iff_joint_report (settings 0) [⟨30, 6.0⟩, ⟨60, 4.0⟩]).2.1.mpr
      ⟨⟨60, 4.0⟩, by simp, by norm_num [settings]⟩⟩

/-- C5: the sentinel values are `STATUS_GETBYTE_TIMEOUT = 255`,
`STATUS_PRESSED_X = 254` and `STATUS_GETNUMBER_TIMEOUT = -123455555`; they are
pairwise distinct; a byte value `b` with `0 ≤ b ≤ 253` differs from both byte
sentinels; `STATUS_GETNUMBER_TIMEOUT` is negative, lies in the signed 32-bit
range and is not in the range of an unsigned byte. -/
theorem returnStatus_sentinels_out_of_band (b : Int) (h0 : 0 ≤ b) (h1 : b ≤ 253) :
    returnStatus.encoding .STATUS_GETBYTE_TIMEOUT = 255 ∧
    returnStatus.encoding .STATUS_PRESSED_X = 254 ∧
    returnStatus.encoding .STATUS_GETNUMBER_TIMEOUT = -123455555 ∧
    returnStatus.encoding .STATUS_GETBYTE_TIMEOUT ≠ returnStatus.encoding .STATUS_PRESSED_X ∧
    returnStatus.encoding .STATUS_GETBYTE_TIMEOUT ≠
      returnStatus.encoding .STATUS_GETNUMBER_TIMEOUT ∧
    returnStatus.encoding .STATUS_PRESSED_X ≠ returnStatus.encoding .STATUS_GETNUMBER_TIMEOUT ∧
    b ≠ returnStatus.encoding .STATUS_GETBYTE_TIMEOUT ∧
    b ≠ returnStatus.encoding .STATUS_PRESSED_X ∧
    returnStatus.encoding .STATUS_GETNUMBER_TIMEOUT < 0 ∧
    -(2 : Int) ^ 31 ≤ returnStatus.encoding .STATUS_GETNUMBER_TIMEOUT ∧
    returnStatus.encoding .STATUS_GETNUMBER_TIMEOUT < (2 : Int) ^ 31 ∧
    ¬ (0 ≤ returnStatus.encoding .STATUS_GETNUMBER_TIMEOUT ∧
        returnStatus.encoding .STATUS_GETNUMBER_TIMEOUT ≤ 255) := by
  have e1 : returnStatus.encoding .STATUS_GETBYTE_TIMEOUT = 255 := by decide
  have e2 : returnStatus.encoding .STATUS_PRESSED_X = 254 := by decide
  have e3 : returnStatus.encoding .STATUS_GETNUMBER_TIMEOUT = -123455555 := by decide
  rw [e1, e2, e3]
  refine ⟨rfl, rfl, rfl, by decide, by decide, by decide, ?_, ?_, by decide, by decide,
    by decide, by decide⟩
  · omega
  · omega

/-- C5, at the byte value 253, the largest one below both byte sentinels. -/
theorem returnStatus_sentinels_out_of_band_witness :
    (253 : Int) ≠ returnStatus.encoding .STATUS_GETBYTE_TIMEOUT ∧
    (253 : Int) ≠ returnStatus.encoding .STATUS_PRESSED_X :=
  have h := returnStatus_sentinels_out_of_band 253 (by decide) (by decide)
  ⟨h.2.2.2.2.2.2.1, h.2.2.2.2.2.2.2.1⟩

/-- C6: the blink codes are `ERROR_NO_I2C = 2` and `ERROR_GPS_CONFIG_FAIL = 3`;
the encoding of `t_errorNumber` is injective, and no error has code 0 or 1. -/
theorem t_errorNumber_blink_codes :
    t_errorNumber.encoding .ERROR_NO_I2C = 2 ∧
    t_errorNumber.encoding .ERROR_GPS_CONFIG_FAIL = 3 ∧
    Function.Injective t_errorNumber.encoding ∧
    (∀ e : t_errorNumber, e.encoding ≠ 0 ∧ e.encoding ≠ 1) := by
  refine ⟨by decide, by decide, ?_, ?_⟩
  · intro a b h
    cases a <;> cases b <;> first | rfl | exact absurd h (by decide)
  · intro e
    cases e <;> decide

/-- C7: the `char` array members of `struct_settings` are exactly `casterHost`,
`mountPoint`, `mountPointPW`, `wifiSSID` and `wifiPW`; each has capacity 50,
and each default value ("rtk2go.com", "bldr_dwntwn2", "WR5wRo4H", "TRex",
"parachutes") is at most 49 bytes long, so it fits with its terminating NUL. -/
theorem text_members_defaults_fit (RTK_IDENTIFIER : Int) :
    struct_settings.textMembers =
      ["casterHost", "mountPoint", "mountPointPW", "wifiSSID", "wifiPW"] ∧
    (∀ name ∈ struct_settings.textMembers, struct_settings.capacity name = some 50) ∧
    (settings RTK_IDENTIFIER).casterHost = "rtk2go.com" ∧
    (settings RTK_IDENTIFIER).mountPoint = "bldr_dwntwn2" ∧
    (settings RTK_IDENTIFIER).mountPointPW = "WR5wRo4H" ∧
    (settings RTK_IDENTIFIER).wifiSSID = "TRex" ∧
    (settings RTK_IDENTIFIER).wifiPW = "parachutes" ∧
    (settings RTK_IDENTIFIER).casterHost.utf8ByteSize ≤ 49 ∧
    (settings RTK_IDENTIFIER).mountPoint.utf8ByteSize ≤ 49 ∧
    (settings RTK_IDENTIFIER).mountPointPW.utf8ByteSize ≤ 49 ∧
    (settings RTK_IDENTIFIER).wifiSSID.utf8ByteSize ≤ 49 ∧
    (settings RTK_IDENTIFIER).wifiPW.utf8ByteSize ≤ 49 ∧
    (settings RTK_IDENTIFIER).casterHost.length ≤ 49 ∧
    (settings RTK_IDENTIFIER).mountPoint.length ≤ 49 ∧
    (settings RTK_IDENTIFIER).mountPointPW.length ≤ 49 ∧
    (settings RTK_IDENTIFIER).wifiSSID.length ≤ 49 ∧
    (settings RTK_IDENTIFIER).wifiPW.length ≤ 49 := by
  refine ⟨by decide, by decide, rfl, rfl, rfl, rfl, rfl, ?_, ?_, ?_, ?_, ?_, ?_, ?_, ?_, ?_, ?_⟩
  · show "rtk2go.com".utf8ByteSize ≤ 49
    decide
  · show "bldr_dwntwn2".utf8ByteSize ≤ 49
    decide
  · show "WR5wRo4H".utf8ByteSize ≤ 49
    decide
  · show "TRex".utf8ByteSize ≤ 49
    decide
  · show "parachutes".utf8ByteSize ≤ 49
    decide
  · show "rtk2go.com".length ≤ 49
    decide
  · show "bldr_dwntwn2".length ≤ 49
    decide
  · show "WR5wRo4H".length ≤ 49
    decide
  · show "TRex".length ≤ 49
    decide
  · show "parachutes".length ≤ 49
    decide

/-- C8: the default record has `fixedBase = false`,
`surveyInStartingAccuracy = 1.0`, `observationSeconds = 60` and
`observationPositionAccuracy = 5.0`; against these defaults 1.2 exceeds the
starting accuracy, 0.8 is at or below it, and the report with elapsed time 60
and accuracy 4.0 has 60 ≥ `observationSeconds` and
4.0 ≤ `observationPositionAccuracy`. -/
theorem default_survey_in_thresholds (RTK_IDENTIFIER : Int) :
    (settings RTK_IDENTIFIER).fixedBase = false ∧
    (settings RTK_IDENTIFIER).surveyInStartingAccuracy = 1.0 ∧
    (settings RTK_IDENTIFIER).observationSeconds = 60 ∧
    (settings RTK_IDENTIFIER).observationPositionAccuracy = 5.0 ∧
    (1.2 : ℚ) > (settings RTK_IDENTIFIER).surveyInStartingAccuracy ∧
    ¬ ((1.2 : ℚ) ≤ (settings RTK_IDENTIFIER).surveyInStartingAccuracy) ∧
    (0.8 : ℚ) ≤ (settings RTK_IDENTIFIER).surveyInStartingAccuracy ∧
    (60 : Int) ≥ (settings RTK_IDENTIFIER).observationSeconds ∧
    (4.0 : ℚ) ≤ (settings RTK_IDENTIFIER).observationPositionAccuracy := by
  refine ⟨rfl, rfl, rfl, rfl, ?_, ?_, ?_, ?_, ?_⟩
  · show (1.2 : ℚ) > 1.0
    norm_num
  · show ¬ ((1.2 : ℚ) ≤ 1.0)
    norm_num
  · show (0.8 : ℚ) ≤ 1.0
    norm_num
  · show (60 : Int) ≥ 60
    decide
  · show (4.0 : ℚ) ≤ 5.0
    norm_num

end RTKSurveyor
